import Mathlib

/-!
Verification development for the tool-calling scripts of the VedanthB/LLMs
repository.  The three Python sources are shallowly embedded:

* `GroqWeather`  — tool-calling/groq_weather_function_call.py
* `FastMCP`     — tool-calling/fastmcp_groq_weather_server.py
* `OpenAIStock` — tool-calling/openai_stock_function_call.py

The LLM chat endpoint is an external collaborator: each orchestrator takes the
two assistant replies as oracle inputs and records, in an `OrchResult`, the
transport calls it performed, the tool executions it ran, the tool-result
messages it appended, and the surfaced outcome (or the Python exception that
propagated).  Machine-level floats are modelled as exact decimals (`JNum`);
Python `json.dumps`/`json.loads` are modelled by `Json.dumps`/`loads` below
(scientific notation and \u escapes are not modelled — no input in this
development uses them).
-/

/-- Exact decimal number: `mantissa / 10 ^ exp`.  Models the numeric values
that flow through the scripts (Python floats printed in decimal form). -/
structure JNum where
  mantissa : Int
  exp : Nat
deriving DecidableEq

/-- Decimal rendering matching Python `json.dumps` for these values:
integers print without a point, decimals with `exp` fractional digits. -/
def JNum.render (n : JNum) : String :=
  if n.exp = 0 then toString n.mantissa
  else
    let sign := if n.mantissa < 0 then "-" else ""
    let digits := toString n.mantissa.natAbs
    let padded :=
      if digits.length < n.exp + 1 then
        String.mk (List.replicate (n.exp + 1 - digits.length) '0') ++ digits
      else digits
    let k := padded.length - n.exp
    sign ++ padded.take k ++ "." ++ padded.drop k

/-- JSON values, the data the scripts serialize and parse. -/
inductive Json where
  | null
  | bool (b : Bool)
  | num (n : JNum)
  | str (s : String)
  | arr (elts : List Json)
  | obj (fields : List (String × Json))

/-- Escape of one character inside a JSON string literal
(`json.dumps` default, ASCII inputs). -/
def escChar (c : Char) : List Char :=
  if c = '"' then ['\\', '"']
  else if c = '\\' then ['\\', '\\']
  else if c = '\n' then ['\\', 'n']
  else if c = '\t' then ['\\', 't']
  else if c = '\r' then ['\\', 'r']
  else [c]

def escapeString (s : String) : String :=
  String.mk (s.data.flatMap escChar)

def renderStr (s : String) : String :=
  "\"" ++ escapeString s ++ "\""

mutual
/-- Python `json.dumps` with its default separators. -/
def Json.dumps : Json → String
  | .null => "null"
  | .bool true => "true"
  | .bool false => "false"
  | .num n => n.render
  | .str s => renderStr s
  | .arr es => "[" ++ Json.dumpsElems es ++ "]"
  | .obj fs => "\x7b" ++ Json.dumpsFields fs ++ "\x7d"

def Json.dumpsElems : List Json → String
  | [] => ""
  | [j] => j.dumps
  | j :: rest => j.dumps ++ ", " ++ Json.dumpsElems rest

def Json.dumpsFields : List (String × Json) → String
  | [] => ""
  | [(k, v)] => renderStr k ++ ": " ++ v.dumps
  | (k, v) :: rest => renderStr k ++ ": " ++ v.dumps ++ ", " ++ Json.dumpsFields rest
end

/-- JSON whitespace. -/
def isWs (c : Char) : Bool :=
  c = ' ' || c = '\t' || c = '\n' || c = '\r'

def skipWs : List Char → List Char
  | [] => []
  | c :: cs => if isWs c then skipWs cs else c :: cs

/-- Decode the character after a backslash in a JSON string literal. -/
def escDecode (c : Char) : Option Char :=
  if c = '"' then some '"'
  else if c = '\\' then some '\\'
  else if c = '/' then some '/'
  else if c = 'n' then some '\n'
  else if c = 't' then some '\t'
  else if c = 'r' then some '\r'
  else if c = 'b' then some (Char.ofNat 8)
  else if c = 'f' then some (Char.ofNat 12)
  else none

/-- Parse the body of a JSON string literal (after the opening quote);
returns the decoded characters and the rest of the input. -/
def parseStrChars : List Char → Option (List Char × List Char)
  | [] => none
  | '"' :: rest => some ([], rest)
  | '\\' :: e :: rest =>
    match escDecode e with
    | none => none
    | some c => (parseStrChars rest).map (fun p => (c :: p.1, p.2))
  | c :: rest => (parseStrChars rest).map (fun p => (c :: p.1, p.2))

def digitVal (c : Char) : Option Nat :=
  if '0' ≤ c ∧ c ≤ '9' then some (c.toNat - '0'.toNat) else none

def takeDigits : List Char → (List Nat × List Char)
  | [] => ([], [])
  | c :: rest =>
    match digitVal c with
    | some d =>
      let p := takeDigits rest
      (d :: p.1, p.2)
    | none => ([], c :: rest)

def digitsToNat (ds : List Nat) : Nat :=
  ds.foldl (fun a d => a * 10 + d) 0

/-- Parse a JSON number (integer or decimal fraction). -/
def parseNumber (cs : List Char) : Option (JNum × List Char) :=
  let p0 := match cs with
    | '-' :: r => (true, r)
    | _ => (false, cs)
  let ip := takeDigits p0.2
  if ip.1 = [] then none
  else
    match ip.2 with
    | '.' :: cs3 =>
      let fp := takeDigits cs3
      if fp.1 = [] then none
      else
        let m : Int := Int.ofNat (digitsToNat (ip.1 ++ fp.1))
        some (⟨if p0.1 then -m else m, fp.1.length⟩, fp.2)
    | _ =>
      let m : Int := Int.ofNat (digitsToNat ip.1)
      some (⟨if p0.1 then -m else m, 0⟩, ip.2)

mutual
/-- Recursive-descent JSON value parser (fuel-indexed). -/
def parseValue : Nat → List Char → Option (Json × List Char)
  | 0, _ => none
  | fuel + 1, cs =>
    match skipWs cs with
    | 'n' :: 'u' :: 'l' :: 'l' :: rest => some (.null, rest)
    | 't' :: 'r' :: 'u' :: 'e' :: rest => some (.bool true, rest)
    | 'f' :: 'a' :: 'l' :: 's' :: 'e' :: rest => some (.bool false, rest)
    | '"' :: rest => (parseStrChars rest).map (fun p => (.str (String.mk p.1), p.2))
    | '[' :: rest =>
      (match skipWs rest with
       | ']' :: r2 => some (.arr [], r2)
       | r => (parseElems fuel r).map (fun p => (.arr p.1, p.2)))
    | '{' :: rest =>
      (match skipWs rest with
       | '}' :: r2 => some (.obj [], r2)
       | r => (parseFields fuel r).map (fun p => (.obj p.1, p.2)))
    | rest => (parseNumber rest).map (fun p => (.num p.1, p.2))

def parseElems : Nat → List Char → Option (List Json × List Char)
  | 0, _ => none
  | fuel + 1, cs =>
    match parseValue fuel cs with
    | none => none
    | some (j, rest) =>
      match skipWs rest with
      | ',' :: r2 => (parseElems fuel r2).map (fun p => (j :: p.1, p.2))
      | ']' :: r2 => some ([j], r2)
      | _ => none

def parseFields : Nat → List Char → Option (List (String × Json) × List Char)
  | 0, _ => none
  | fuel + 1, cs =>
    match skipWs cs with
    | '"' :: rest =>
      match parseStrChars rest with
      | none => none
      | some (kcs, r1) =>
        match skipWs r1 with
        | ':' :: r2 =>
          (match parseValue fuel r2 with
           | none => none
           | some (v, r3) =>
             match skipWs r3 with
             | ',' :: r4 => (parseFields fuel r4).map (fun p => ((String.mk kcs, v) :: p.1, p.2))
             | '}' :: r4 => some ([(String.mk kcs, v)], r4)
             | _ => none)
        | _ => none
    | _ => none
end

/-- Python `json.loads`: parse a complete JSON document. -/
def loads (s : String) : Option Json :=
  match parseValue (2 * s.length + 2) s.data with
  | some (j, rest) => if (skipWs rest).isEmpty then some j else none
  | none => none

/-- Python truthiness of a JSON-decoded value (`if not x`). -/
def pyFalsy : Json → Bool
  | .null => true
  | .bool b => !b
  | .num n => n.mantissa = 0
  | .str s => s = ""
  | .arr es => es.isEmpty
  | .obj fs => fs.isEmpty

/-- Python f-string interpolation of a JSON-decoded value.  Container values
are approximated by their JSON serialization (Python repr would use single
quotes); no code path exercised here interpolates a container. -/
def pyStr : Json → String
  | .str s => s
  | .num n => n.render
  | .bool true => "True"
  | .bool false => "False"
  | .null => "None"
  | j => j.dumps

/-- Python `x or default` for an optional string (`None` and `""` are falsy). -/
def pyOrStr (c : Option String) (d : String) : String :=
  match c with
  | none => d
  | some s => if s = "" then d else s

/-- Python exceptions that can propagate out of the embedded code. -/
inductive PyErr where
  /-- `json.JSONDecodeError` from `json.loads` (carries the offending document). -/
  | jsonDecodeError (doc : String)
  /-- `TypeError` from a `f(**args)` call whose keywords do not match. -/
  | typeError (msg : String)
  /-- `EnvironmentError` raised by `require_env` for the named variable. -/
  | environmentError (var : String)
  /-- `requests.exceptions.JSONDecodeError` from `response.json()` on a
  malformed body (raised outside the `try` block in both weather executors). -/
  | requestsJSONDecodeError
deriving DecidableEq

/-- Result of one tool-executor invocation that returned: the JSON string it
produced and how many outbound network calls it performed. -/
structure ExecResult where
  output : String
  networkCalls : Nat
deriving DecidableEq

/-- Python `f(**args)` for a function with a single named parameter: the
decoded arguments must be an object binding exactly that parameter, anything
else raises `TypeError`.  (`json.loads` never yields duplicate keys, so a
one-parameter binding corresponds to a one-field object.) -/
def bindSingleKwarg (param : String) (args : Json) : Except PyErr Json :=
  match args with
  | .obj [(k, v)] =>
    if k = param then .ok v
    else .error (.typeError ("unexpected keyword argument " ++ k))
  | .obj [] => .error (.typeError ("missing required argument " ++ param))
  | .obj _ => .error (.typeError "keyword arguments do not match the parameter")
  | _ => .error (.typeError "argument after ** must be a mapping")

/-- The fields of an OpenWeatherMap response body that the scripts read
(`payload["main"][...]`, `payload["wind"]["speed"]`, `payload["weather"][0][...]`).
A body on which all these lookups succeed is represented directly; a body that
fails JSON decoding is `NetOutcome.okBody none`. -/
structure WeatherBody where
  temp : Json
  feelsLike : Json
  humidity : Json
  pressure : Json
  windSpeed : Json
  description : Json
  icon : Json

/-- Outcome of the outbound OpenWeatherMap GET, as the external collaborator:
either a `requests.RequestException` (timeout, connection failure, or the
`HTTPError` that `raise_for_status` turns a non-2xx status into), or a 2xx
response whose body is decodable (`some`) or malformed (`none`). -/
inductive NetOutcome where
  | requestError (msg : String)
  | okBody (body : Option WeatherBody)

namespace GroqWeather

/-- get_current_weather of groq_weather_function_call.py.  Requires the
OPENWEATHER_API_KEY environment variable (`require_env` raises without it);
catches `RequestException` around the GET and `raise_for_status`, but decodes
the body outside the `try`. -/
def get_current_weather (owKey : Option String) (net : NetOutcome)
    (location : Json) : Except PyErr ExecResult :=
  match owKey with
  | none => .error (.environmentError "OPENWEATHER_API_KEY")
  | some _ =>
    match net with
    | .requestError msg =>
      .ok ⟨Json.dumps (.obj [("error", .str ("OpenWeatherMap request failed: " ++ msg))]), 1⟩
    | .okBody none => .error .requestsJSONDecodeError
    | .okBody (some b) =>
      .ok ⟨Json.dumps (.obj
        [("location", location),
         ("temperature_c", b.temp),
         ("feels_like_c", b.feelsLike),
         ("humidity_pct", b.humidity),
         ("pressure_hpa", b.pressure),
         ("wind_speed_mps", b.windSpeed),
         ("description", b.description),
         ("icon", b.icon)]), 1⟩

end GroqWeather

namespace FastMCP

/-- get_current_weather of fastmcp_groq_weather_server.py.  Unlike the Groq
CLI variant it falls back to a deterministic demo payload (and performs zero
network calls) when OPENWEATHER_API_KEY is absent; the keyed path is identical
to the CLI variant. -/
def get_current_weather (owKey : Option String) (net : NetOutcome)
    (location : Json) : Except PyErr ExecResult :=
  match owKey with
  | none =>
    .ok ⟨Json.dumps (.obj
      [("location", location),
       ("temperature_c", .num ⟨240, 1⟩),
       ("feels_like_c", .num ⟨252, 1⟩),
       ("description", .str "partly cloudy (demo)"),
       ("note", .str "Set OPENWEATHER_API_KEY for real data.")]), 0⟩
  | some _ =>
    match net with
    | .requestError msg =>
      .ok ⟨Json.dumps (.obj [("error", .str ("OpenWeatherMap request failed: " ++ msg))]), 1⟩
    | .okBody none => .error .requestsJSONDecodeError
    | .okBody (some b) =>
      .ok ⟨Json.dumps (.obj
        [("location", location),
         ("temperature_c", b.temp),
         ("feels_like_c", b.feelsLike),
         ("humidity_pct", b.humidity),
         ("pressure_hpa", b.pressure),
         ("wind_speed_mps", b.windSpeed),
         ("description", b.description),
         ("icon", b.icon)]), 1⟩

end FastMCP

/-- One row of the yfinance one-day history frame, carrying what the script
reads: the Close value and the index timestamp in ISO-8601 form. -/
structure StockRow where
  close : JNum
  tsIso : String
deriving DecidableEq

/-- Outcome of `yf.Ticker(sym).history(period="1d")`: either any exception
(all are caught by the script) or the returned rows (empty list for an empty
frame). -/
inductive YfHistory where
  | raise (msg : String)
  | rows (rs : List StockRow)
deriving DecidableEq

/-- Round a nonnegative integer quotient `m / 10 ^ d` to the nearest integer,
ties to even. -/
def rheNat (m p : Nat) : Nat :=
  let q := m / p
  let r := m % p
  if 2 * r < p then q
  else if p < 2 * r then q + 1
  else if q % 2 = 0 then q else q + 1

/-- Python `round(x, 4)` modelled as exact decimal rounding, ties to even.
(The binary-float tie cases of the real `round` are not observable through
any property proved here.) -/
def pyRound4 (n : JNum) : JNum :=
  if n.exp ≤ 4 then n
  else
    let p := 10 ^ (n.exp - 4)
    let q := Int.ofNat (rheNat n.mantissa.natAbs p)
    ⟨if n.mantissa < 0 then -q else q, 4⟩

namespace OpenAIStock

/-- get_current_stock_price of openai_stock_function_call.py.  Total: the
missing-argument check precedes everything, the `try` around yfinance catches
every exception, and an empty frame yields its own distinct error payload. -/
def get_current_stock_price (yf : YfHistory) (fastInfoCurrency : Option String)
    (stock_symbol : Json) : ExecResult :=
  if pyFalsy stock_symbol then
    ⟨Json.dumps (.obj [("error", .str "Missing stock_symbol argument.")]), 0⟩
  else
    match yf with
    | .raise msg =>
      ⟨Json.dumps (.obj
        [("error", .str ("Unable to fetch data for " ++ pyStr stock_symbol ++ ": " ++ msg))]), 1⟩
    | .rows [] =>
      ⟨Json.dumps (.obj
        [("error", .str ("No pricing data returned for " ++ pyStr stock_symbol ++ "."))]), 1⟩
    | .rows (r0 :: rest) =>
      let latest := (r0 :: rest).getLast (by simp)
      ⟨Json.dumps (.obj
        [("stock_symbol", stock_symbol),
         ("close_price", .num (pyRound4 latest.close)),
         ("currency", .str (fastInfoCurrency.getD "UNKNOWN")),
         ("timestamp", .str latest.tsIso)]), 1⟩

end OpenAIStock

/-- One tool invocation request from the model
(`{id, type, function: {name, arguments}}`, flattened). -/
structure ToolCall where
  id : String
  type : String
  name : String
  arguments : String
deriving DecidableEq

/-- The normalized assistant reply: `choices[0].message` of a chat-completion
response.  `tool_calls` is `none` when the field is absent (`tool_calls or []`
treats that like an empty list). -/
structure AssistantMessage where
  content : Option String
  tool_calls : Option (List ToolCall)

/-- A conversation message as the scripts build them. -/
inductive Msg where
  | system (content : String)
  | user (content : String)
  | assistant (content : Option String) (tool_calls : List ToolCall)
  | tool (tool_call_id : String) (name : Option String) (content : String)
deriving DecidableEq

/-- The `tool_call_id` field of a message (`none` for non-tool roles). -/
def Msg.toolCallId : Msg → Option String
  | .tool tid _ _ => some tid
  | _ => none

/-- One chat-completion request issued to the backend. -/
structure TransportCall where
  model : String
  temperature : JNum
  maxTokens : Nat
  withTools : Bool
  messages : List Msg
deriving DecidableEq

/-- What an orchestrator surfaces when it terminates normally. -/
inductive Surfaced where
  /-- Round-one content printed as the answer (no second round). -/
  | roundOne (content : Option String)
  /-- The Groq CLI stop notice: "No tool output to send back to the model;
  stopping here." — the round-one content is not re-surfaced. -/
  | stopNotice
  /-- Round-two content returned as the final answer. -/
  | finalAnswer (content : Option String)
  /-- The FastMCP tool returns a plain string on its no-tool-call path. -/
  | roundOneText (text : String)
deriving DecidableEq

deriving instance DecidableEq for Except

/-- Observable record of one orchestrator run: the transport calls made, the
tool executions that returned (paired with their triggering request), the
tool-result messages built, and the outcome (`Except.error` when a Python
exception propagated, i.e. the process crashed). -/
structure OrchResult where
  transports : List TransportCall
  execs : List (ToolCall × String)
  toolMessages : List Msg
  outcome : Except PyErr Surfaced
deriving DecidableEq

namespace GroqWeather

/-- Processing of one requested call inside the loop of
call_model_with_tools: `json.loads` the raw arguments, bind them as keyword
arguments, run the executor. -/
def processCall (owKey : Option String) (net : NetOutcome) (c : ToolCall) :
    Except PyErr String :=
  match loads c.arguments with
  | none => .error (.jsonDecodeError c.arguments)
  | some args =>
    match bindSingleKwarg "location" args with
    | .error e => .error e
    | .ok loc => (get_current_weather owKey net loc).map (fun r => r.output)

/-- The tool-call loop of call_model_with_tools: skip calls whose name is not
`get_current_weather`; for the rest, process in order, aborting on the first
propagated exception.  Returns the executed (request, output) pairs, the tool
messages built, and the exception if one escaped. -/
def runToolCalls (owKey : Option String) (net : NetOutcome) :
    List ToolCall → List (ToolCall × String) × List Msg × Option PyErr
  | [] => ([], [], none)
  | call :: rest =>
    if call.name = "get_current_weather" then
      match processCall owKey net call with
      | .error e => ([], [], some e)
      | .ok out =>
        let t := runToolCalls owKey net rest
        ((call, out) :: t.1, Msg.tool call.id (some call.name) out :: t.2.1, t.2.2)
    else runToolCalls owKey net rest

def systemPrompt : String :=
  "You are a friendly weather assistant that uses tools when needed."

/-- call_model_with_tools of groq_weather_function_call.py, with the two
model replies supplied as oracle inputs. -/
def call_model_with_tools (owKey : Option String) (net : NetOutcome)
    (question : String) (reply1 : AssistantMessage) (reply2Content : Option String) :
    OrchResult :=
  let initial : List Msg := [.system systemPrompt, .user question]
  let t1 : TransportCall := ⟨"openai/gpt-oss-20b", ⟨0, 0⟩, 300, true, initial⟩
  match reply1.tool_calls.getD [] with
  | [] => ⟨[t1], [], [], .ok (.roundOne reply1.content)⟩
  | tc0 :: tcs =>
    let tool_calls := tc0 :: tcs
    match runToolCalls owKey net tool_calls with
    | (execs, toolMsgs, some e) => ⟨[t1], execs, toolMsgs, .error e⟩
    | (execs, [], none) => ⟨[t1], execs, [], .ok .stopNotice⟩
    | (execs, toolMsgs, none) =>
      let followUp := initial ++ [.assistant reply1.content tool_calls] ++ toolMsgs
      ⟨[t1, ⟨"openai/gpt-oss-20b", ⟨2, 1⟩, 400, false, followUp⟩],
        execs, toolMsgs, .ok (.finalAnswer reply2Content)⟩

end GroqWeather

namespace OpenAIStock

/-- Processing of one requested call inside the loop of
call_model_with_tools (the stock executor is total, so only argument decoding
and binding can raise). -/
def processCall (yf : YfHistory) (cur : Option String) (c : ToolCall) :
    Except PyErr String :=
  match loads c.arguments with
  | none => .error (.jsonDecodeError c.arguments)
  | some args =>
    (bindSingleKwarg "stock_symbol" args).map
      (fun sym => (get_current_stock_price yf cur sym).output)

/-- The tool-call loop of call_model_with_tools of
openai_stock_function_call.py: skip names other than
`get_current_stock_price`, process the rest in order. -/
def runToolCalls (yf : YfHistory) (cur : Option String) :
    List ToolCall → List (ToolCall × String) × List Msg × Option PyErr
  | [] => ([], [], none)
  | call :: rest =>
    if call.name = "get_current_stock_price" then
      match processCall yf cur call with
      | .error e => ([], [], some e)
      | .ok out =>
        let t := runToolCalls yf cur rest
        ((call, out) :: t.1, Msg.tool call.id (some call.name) out :: t.2.1, t.2.2)
    else runToolCalls yf cur rest

def systemPrompt : String :=
  "You are an enthusiastic financial assistant. Use the provided tools to ensure prices are accurate."

/-- call_model_with_tools of openai_stock_function_call.py.  Unlike the Groq
variant there is no separate zero-request branch: an empty `tool_messages`
list (no requests, or all skipped) prints the round-one content. -/
def call_model_with_tools (yf : YfHistory) (cur : Option String)
    (question : String) (reply1 : AssistantMessage) (reply2Content : Option String) :
    OrchResult :=
  let initial : List Msg := [.system systemPrompt, .user question]
  let t1 : TransportCall := ⟨"gpt-3.5-turbo", ⟨0, 0⟩, 300, true, initial⟩
  let tool_calls := reply1.tool_calls.getD []
  match runToolCalls yf cur tool_calls with
  | (execs, toolMsgs, some e) => ⟨[t1], execs, toolMsgs, .error e⟩
  | (execs, [], none) => ⟨[t1], execs, [], .ok (.roundOne reply1.content)⟩
  | (execs, toolMsgs, none) =>
    let followUp := initial ++ [.assistant reply1.content tool_calls] ++ toolMsgs
    ⟨[t1, ⟨"gpt-3.5-turbo", ⟨2, 1⟩, 400, false, followUp⟩],
      execs, toolMsgs, .ok (.finalAnswer reply2Content)⟩

end OpenAIStock

namespace FastMCP

/-- get_weather_with_groq of fastmcp_groq_weather_server.py.  No tool-name
check: the first requested call (whatever its name) has its arguments decoded
and is executed via get_current_weather; further requests are ignored.  The
tool-result message carries no `name` field, and the no-tool-call path
returns `content or "Model did not return any content."`. -/
def get_weather_with_groq (owKey : Option String) (net : NetOutcome)
    (query : String) (reply1 : AssistantMessage) (reply2Content : Option String) :
    OrchResult :=
  let t1 : TransportCall := ⟨"openai/gpt-oss-20b", ⟨0, 0⟩, 300, true, [.user query]⟩
  match reply1.tool_calls.getD [] with
  | [] =>
    ⟨[t1], [], [],
      .ok (.roundOneText (pyOrStr reply1.content "Model did not return any content."))⟩
  | c0 :: _ =>
    match loads c0.arguments with
    | none => ⟨[t1], [], [], .error (.jsonDecodeError c0.arguments)⟩
    | some args =>
      match bindSingleKwarg "location" args with
      | .error e => ⟨[t1], [], [], .error e⟩
      | .ok loc =>
        match get_current_weather owKey net loc with
        | .error e => ⟨[t1], [], [], .error e⟩
        | .ok r =>
          let toolMsg := Msg.tool c0.id none r.output
          let msgs2 : List Msg := [.user query, .assistant reply1.content [c0], toolMsg]
          ⟨[t1, ⟨"openai/gpt-oss-20b", ⟨0, 0⟩, 300, false, msgs2⟩],
            [(c0, r.output)], [toolMsg], .ok (.finalAnswer reply2Content)⟩

end FastMCP

/-! Helper lemmas about the tool-call loops. -/

namespace GroqWeather

theorem gw_loop_toolMessages (owKey : Option String) (net : NetOutcome)
    (calls : List ToolCall) :
    (runToolCalls owKey net calls).2.1
      = (runToolCalls owKey net calls).1.map (fun p => Msg.tool p.1.id (some p.1.name) p.2) := by
  induction calls with
  | nil => rfl
  | cons call rest ih =>
    unfold runToolCalls
    by_cases h : call.name = "get_current_weather"
    · simp only [h, if_true]
      cases hp : processCall owKey net call with
      | error e => simp
      | ok out => simpa [h] using ih
    · rw [if_neg h]; exact ih

theorem gw_loop_names (owKey : Option String) (net : NetOutcome)
    (calls : List ToolCall) :
    ∀ p ∈ (runToolCalls owKey net calls).1, p.1.name = "get_current_weather" := by
  induction calls with
  | nil => intro p hp; simp [runToolCalls] at hp
  | cons call rest ih =>
    intro p hp
    unfold runToolCalls at hp
    by_cases h : call.name = "get_current_weather"
    · simp only [h, if_true] at hp
      cases hpp : processCall owKey net call with
      | error e => rw [hpp] at hp; simp at hp
      | ok out =>
        rw [hpp] at hp
        simp only [List.mem_cons] at hp
        rcases hp with hp | hp
        · rw [hp]; exact h
        · exact ih p hp
    · rw [if_neg h] at hp
      exact ih p hp

theorem gw_loop_skip_all (owKey : Option String) (net : NetOutcome)
    (calls : List ToolCall) (h : ∀ c ∈ calls, ¬ c.name = "get_current_weather") :
    runToolCalls owKey net calls = ([], [], none) := by
  induction calls with
  | nil => rfl
  | cons call rest ih =>
    unfold runToolCalls
    rw [if_neg (h call (List.mem_cons_self call rest))]
    exact ih (fun c hc => h c (List.mem_cons_of_mem call hc))

theorem gw_loop_success (owKey : Option String) (net : NetOutcome)
    (calls : List ToolCall)
    (h : ∀ c ∈ calls, c.name = "get_current_weather" →
          ∃ out, processCall owKey net c = .ok out) :
    (runToolCalls owKey net calls).2.2 = none
      ∧ (runToolCalls owKey net calls).1.map Prod.fst
          = calls.filter (fun c => c.name == "get_current_weather") := by
  induction calls with
  | nil => exact ⟨rfl, rfl⟩
  | cons call rest ih =>
    have ihr := ih (fun c hc hn => h c (List.mem_cons_of_mem call hc) hn)
    unfold runToolCalls
    by_cases hn : call.name = "get_current_weather"
    · obtain ⟨out, hout⟩ := h call (List.mem_cons_self call rest) hn
      simp only [hn, if_true, hout]
      refine ⟨ihr.1, ?_⟩
      simp only [List.map_cons, List.filter_cons]
      have : (call.name == "get_current_weather") = true := by
        exact beq_iff_eq.mpr hn
      rw [this]
      simp [ihr.2]
    · simp only [hn, if_false]
      refine ⟨ihr.1, ?_⟩
      simp only [List.filter_cons]
      have : (call.name == "get_current_weather") = false := by
        exact beq_eq_false_iff_ne.mpr hn
      rw [this]
      exact ihr.2

end GroqWeather

namespace OpenAIStock

theorem os_loop_toolMessages (yf : YfHistory) (cur : Option String)
    (calls : List ToolCall) :
    (runToolCalls yf cur calls).2.1
      = (runToolCalls yf cur calls).1.map (fun p => Msg.tool p.1.id (some p.1.name) p.2) := by
  induction calls with
  | nil => rfl
  | cons call rest ih =>
    unfold runToolCalls
    by_cases h : call.name = "get_current_stock_price"
    · simp only [h, if_true]
      cases hp : processCall yf cur call with
      | error e => simp
      | ok out => simpa [h] using ih
    · rw [if_neg h]; exact ih

theorem os_loop_names (yf : YfHistory) (cur : Option String)
    (calls : List ToolCall) :
    ∀ p ∈ (runToolCalls yf cur calls).1, p.1.name = "get_current_stock_price" := by
  induction calls with
  | nil => intro p hp; simp [runToolCalls] at hp
  | cons call rest ih =>
    intro p hp
    unfold runToolCalls at hp
    by_cases h : call.name = "get_current_stock_price"
    · simp only [h, if_true] at hp
      cases hpp : processCall yf cur call with
      | error e => rw [hpp] at hp; simp at hp
      | ok out =>
        rw [hpp] at hp
        simp only [List.mem_cons] at hp
        rcases hp with hp | hp
        · rw [hp]; exact h
        · exact ih p hp
    · rw [if_neg h] at hp
      exact ih p hp

theorem os_loop_skip_all (yf : YfHistory) (cur : Option String)
    (calls : List ToolCall) (h : ∀ c ∈ calls, ¬ c.name = "get_current_stock_price") :
    runToolCalls yf cur calls = ([], [], none) := by
  induction calls with
  | nil => rfl
  | cons call rest ih =>
    unfold runToolCalls
    rw [if_neg (h call (List.mem_cons_self call rest))]
    exact ih (fun c hc => h c (List.mem_cons_of_mem call hc))

theorem os_loop_success (yf : YfHistory) (cur : Option String)
    (calls : List ToolCall)
    (h : ∀ c ∈ calls, c.name = "get_current_stock_price" →
          ∃ out, processCall yf cur c = .ok out) :
    (runToolCalls yf cur calls).2.2 = none
      ∧ (runToolCalls yf cur calls).1.map Prod.fst
          = calls.filter (fun c => c.name == "get_current_stock_price") := by
  induction calls with
  | nil => exact ⟨rfl, rfl⟩
  | cons call rest ih =>
    have ihr := ih (fun c hc hn => h c (List.mem_cons_of_mem call hc) hn)
    unfold runToolCalls
    by_cases hn : call.name = "get_current_stock_price"
    · obtain ⟨out, hout⟩ := h call (List.mem_cons_self call rest) hn
      simp only [hn, if_true, hout]
      refine ⟨ihr.1, ?_⟩
      simp only [List.map_cons, List.filter_cons]
      have : (call.name == "get_current_stock_price") = true := by
        exact beq_iff_eq.mpr hn
      rw [this]
      simp [ihr.2]
    · simp only [hn, if_false]
      refine ⟨ihr.1, ?_⟩
      simp only [List.filter_cons]
      have : (call.name == "get_current_stock_price") = false := by
        exact beq_eq_false_iff_ne.mpr hn
      rw [this]
      exact ihr.2

end OpenAIStock

theorem map_toolCallId_of_built (execs : List (ToolCall × String)) (nm : ToolCall → Option String) :
    (execs.map (fun p => Msg.tool p.1.id (nm p.1) p.2)).map Msg.toolCallId
      = execs.map (fun p => some p.1.id) := by
  induction execs with
  | nil => rfl
  | cons p rest ih => simp [Msg.toolCallId, ih]

theorem GroqWeather.gw_result_toolMessages (owKey : Option String) (net : NetOutcome)
    (q : String) (r1 : AssistantMessage) (r2 : Option String) :
    (call_model_with_tools owKey net q r1 r2).toolMessages
      = (call_model_with_tools owKey net q r1 r2).execs.map
          (fun p => Msg.tool p.1.id (some p.1.name) p.2) := by
  unfold call_model_with_tools
  cases hc : r1.tool_calls.getD [] with
  | nil => rfl
  | cons tc0 tcs =>
    have hmm := gw_loop_toolMessages owKey net (tc0 :: tcs)
    rcases hrun : runToolCalls owKey net (tc0 :: tcs) with ⟨execs, toolMsgs, err⟩
    rw [hrun] at hmm
    simp only at hmm
    cases err with
    | some e => simpa [hrun] using hmm
    | none =>
      cases hm : toolMsgs with
      | nil =>
        rw [hm] at hmm
        have : execs = [] := by
          cases execs with
          | nil => rfl
          | cons a b => simp at hmm
        simp [hrun, hm, this]
      | cons m ms =>
        rw [hm] at hmm
        simp only [hrun, hm]
        simpa using hmm

theorem OpenAIStock.os_result_toolMessages (yf : YfHistory) (cur : Option String)
    (q : String) (r1 : AssistantMessage) (r2 : Option String) :
    (call_model_with_tools yf cur q r1 r2).toolMessages
      = (call_model_with_tools yf cur q r1 r2).execs.map
          (fun p => Msg.tool p.1.id (some p.1.name) p.2) := by
  unfold call_model_with_tools
  have hmm := os_loop_toolMessages yf cur (r1.tool_calls.getD [])
  rcases hrun : runToolCalls yf cur (r1.tool_calls.getD []) with ⟨execs, toolMsgs, err⟩
  rw [hrun] at hmm
  simp only at hmm
  cases err with
  | some e => simpa [hrun] using hmm
  | none =>
    cases hm : toolMsgs with
    | nil =>
      rw [hm] at hmm
      have : execs = [] := by
        cases execs with
        | nil => rfl
        | cons a b => simp at hmm
      simp [hrun, hm, this]
    | cons m ms =>
      rw [hm] at hmm
      simp only [hrun, hm]
      simpa using hmm

theorem FastMCP.mcp_result_toolMessages (owKey : Option String) (net : NetOutcome)
    (q : String) (r1 : AssistantMessage) (r2 : Option String) :
    (get_weather_with_groq owKey net q r1 r2).toolMessages
      = (get_weather_with_groq owKey net q r1 r2).execs.map
          (fun p => Msg.tool p.1.id none p.2) := by
  unfold get_weather_with_groq
  split
  · rfl
  split
  · rfl
  split
  · rfl
  split
  · rfl
  rfl

/-- C7: in all three orchestrators, every tool-result message appended to the
conversation has a `tool_call_id` equal to the id of the tool invocation
request that triggered the corresponding execution (message for message, in
order). -/
theorem c7_tool_result_id_matches_invocation :
    (∀ owKey net q r1 r2,
        ((GroqWeather.call_model_with_tools owKey net q r1 r2).toolMessages.map Msg.toolCallId)
          = (GroqWeather.call_model_with_tools owKey net q r1 r2).execs.map (fun p => some p.1.id))
  ∧ (∀ yf cur q r1 r2,
        ((OpenAIStock.call_model_with_tools yf cur q r1 r2).toolMessages.map Msg.toolCallId)
          = (OpenAIStock.call_model_with_tools yf cur q r1 r2).execs.map (fun p => some p.1.id))
  ∧ (∀ owKey net q r1 r2,
        ((FastMCP.get_weather_with_groq owKey net q r1 r2).toolMessages.map Msg.toolCallId)
          = (FastMCP.get_weather_with_groq owKey net q r1 r2).execs.map (fun p => some p.1.id)) := by
  refine ⟨fun owKey net q r1 r2 => ?_, fun yf cur q r1 r2 => ?_, fun owKey net q r1 r2 => ?_⟩
  · rw [GroqWeather.gw_result_toolMessages]
    exact map_toolCallId_of_built _ (fun c => some c.name)
  · rw [OpenAIStock.os_result_toolMessages]
    exact map_toolCallId_of_built _ (fun c => some c.name)
  · rw [FastMCP.mcp_result_toolMessages]
    exact map_toolCallId_of_built _ (fun _ => none)

/-! Branch characterizations of the orchestrator results. -/

namespace GroqWeather

theorem gw_result_no_calls (owKey : Option String) (net : NetOutcome) (q : String)
    (r1 : AssistantMessage) (r2 : Option String)
    (hc : r1.tool_calls.getD [] = []) :
    call_model_with_tools owKey net q r1 r2
      = ⟨[⟨"openai/gpt-oss-20b", ⟨0, 0⟩, 300, true, [.system systemPrompt, .user q]⟩],
          [], [], .ok (.roundOne r1.content)⟩ := by
  unfold call_model_with_tools
  rw [hc]

theorem gw_result_loop_error (owKey : Option String) (net : NetOutcome) (q : String)
    (r1 : AssistantMessage) (r2 : Option String) (tc0 : ToolCall) (tcs : List ToolCall)
    (es : List (ToolCall × String)) (ms : List Msg) (e : PyErr)
    (hc : r1.tool_calls.getD [] = tc0 :: tcs)
    (hrun : runToolCalls owKey net (tc0 :: tcs) = (es, ms, some e)) :
    call_model_with_tools owKey net q r1 r2
      = ⟨[⟨"openai/gpt-oss-20b", ⟨0, 0⟩, 300, true, [.system systemPrompt, .user q]⟩],
          es, ms, .error e⟩ := by
  simp only [call_model_with_tools, hc, hrun]

theorem gw_result_loop_empty (owKey : Option String) (net : NetOutcome) (q : String)
    (r1 : AssistantMessage) (r2 : Option String) (tc0 : ToolCall) (tcs : List ToolCall)
    (es : List (ToolCall × String))
    (hc : r1.tool_calls.getD [] = tc0 :: tcs)
    (hrun : runToolCalls owKey net (tc0 :: tcs) = (es, [], none)) :
    call_model_with_tools owKey net q r1 r2
      = ⟨[⟨"openai/gpt-oss-20b", ⟨0, 0⟩, 300, true, [.system systemPrompt, .user q]⟩],
          es, [], .ok .stopNotice⟩ := by
  simp only [call_model_with_tools, hc, hrun]

theorem gw_result_two_rounds (owKey : Option String) (net : NetOutcome) (q : String)
    (r1 : AssistantMessage) (r2 : Option String) (tc0 : ToolCall) (tcs : List ToolCall)
    (es : List (ToolCall × String)) (m : Msg) (ms : List Msg)
    (hc : r1.tool_calls.getD [] = tc0 :: tcs)
    (hrun : runToolCalls owKey net (tc0 :: tcs) = (es, m :: ms, none)) :
    call_model_with_tools owKey net q r1 r2
      = ⟨[⟨"openai/gpt-oss-20b", ⟨0, 0⟩, 300, true, [.system systemPrompt, .user q]⟩,
          ⟨"openai/gpt-oss-20b", ⟨2, 1⟩, 400, false,
            [.system systemPrompt, .user q] ++ [.assistant r1.content (tc0 :: tcs)] ++ (m :: ms)⟩],
          es, m :: ms, .ok (.finalAnswer r2)⟩ := by
  simp only [call_model_with_tools, hc, hrun]

end GroqWeather

namespace OpenAIStock

theorem os_result_loop_error (yf : YfHistory) (cur : Option String) (q : String)
    (r1 : AssistantMessage) (r2 : Option String)
    (es : List (ToolCall × String)) (ms : List Msg) (e : PyErr)
    (hrun : runToolCalls yf cur (r1.tool_calls.getD []) = (es, ms, some e)) :
    call_model_with_tools yf cur q r1 r2
      = ⟨[⟨"gpt-3.5-turbo", ⟨0, 0⟩, 300, true, [.system systemPrompt, .user q]⟩],
          es, ms, .error e⟩ := by
  simp only [call_model_with_tools, hrun]

theorem os_result_loop_empty (yf : YfHistory) (cur : Option String) (q : String)
    (r1 : AssistantMessage) (r2 : Option String)
    (es : List (ToolCall × String))
    (hrun : runToolCalls yf cur (r1.tool_calls.getD []) = (es, [], none)) :
    call_model_with_tools yf cur q r1 r2
      = ⟨[⟨"gpt-3.5-turbo", ⟨0, 0⟩, 300, true, [.system systemPrompt, .user q]⟩],
          es, [], .ok (.roundOne r1.content)⟩ := by
  simp only [call_model_with_tools, hrun]

theorem os_result_two_rounds (yf : YfHistory) (cur : Option String) (q : String)
    (r1 : AssistantMessage) (r2 : Option String)
    (es : List (ToolCall × String)) (m : Msg) (ms : List Msg)
    (hrun : runToolCalls yf cur (r1.tool_calls.getD []) = (es, m :: ms, none)) :
    call_model_with_tools yf cur q r1 r2
      = ⟨[⟨"gpt-3.5-turbo", ⟨0, 0⟩, 300, true, [.system systemPrompt, .user q]⟩,
          ⟨"gpt-3.5-turbo", ⟨2, 1⟩, 400, false,
            [.system systemPrompt, .user q]
              ++ [.assistant r1.content (r1.tool_calls.getD [])] ++ (m :: ms)⟩],
          es, m :: ms, .ok (.finalAnswer r2)⟩ := by
  simp only [call_model_with_tools, hrun]

end OpenAIStock

namespace FastMCP

theorem mcp_result_no_calls (owKey : Option String) (net : NetOutcome) (q : String)
    (r1 : AssistantMessage) (r2 : Option String)
    (hc : r1.tool_calls.getD [] = []) :
    get_weather_with_groq owKey net q r1 r2
      = ⟨[⟨"openai/gpt-oss-20b", ⟨0, 0⟩, 300, true, [.user q]⟩], [], [],
          .ok (.roundOneText (pyOrStr r1.content "Model did not return any content."))⟩ := by
  unfold get_weather_with_groq
  rw [hc]

theorem mcp_result_loads_fail (owKey : Option String) (net : NetOutcome) (q : String)
    (r1 : AssistantMessage) (r2 : Option String) (c0 : ToolCall) (cs : List ToolCall)
    (hc : r1.tool_calls.getD [] = c0 :: cs)
    (hl : loads c0.arguments = none) :
    get_weather_with_groq owKey net q r1 r2
      = ⟨[⟨"openai/gpt-oss-20b", ⟨0, 0⟩, 300, true, [.user q]⟩], [], [],
          .error (.jsonDecodeError c0.arguments)⟩ := by
  simp only [get_weather_with_groq, hc, hl]

theorem mcp_result_success (owKey : Option String) (net : NetOutcome) (q : String)
    (r1 : AssistantMessage) (r2 : Option String) (c0 : ToolCall) (cs : List ToolCall)
    (args loc : Json) (r : ExecResult)
    (hc : r1.tool_calls.getD [] = c0 :: cs)
    (hl : loads c0.arguments = some args)
    (hb : bindSingleKwarg "location" args = .ok loc)
    (hx : get_current_weather owKey net loc = .ok r) :
    get_weather_with_groq owKey net q r1 r2
      = ⟨[⟨"openai/gpt-oss-20b", ⟨0, 0⟩, 300, true, [.user q]⟩,
          ⟨"openai/gpt-oss-20b", ⟨0, 0⟩, 300, false,
            [.user q, .assistant r1.content [c0], .tool c0.id none r.output]⟩],
          [(c0, r.output)], [.tool c0.id none r.output], .ok (.finalAnswer r2)⟩ := by
  simp only [get_weather_with_groq, hc, hl, hb, hx]

end FastMCP

namespace GroqWeather

theorem gw_loop_single (owKey : Option String) (net : NetOutcome)
    (c : ToolCall) (out : String)
    (hname : c.name = "get_current_weather")
    (hp : processCall owKey net c = .ok out) :
    runToolCalls owKey net [c] = ([(c, out)], [Msg.tool c.id (some c.name) out], none) := by
  unfold runToolCalls
  rw [if_pos hname, hp]
  rfl

theorem gw_loop_error_head (owKey : Option String) (net : NetOutcome)
    (pre : List ToolCall) (c : ToolCall) (rest : List ToolCall) (e : PyErr)
    (hpre : ∀ x ∈ pre, ¬ x.name = "get_current_weather")
    (hname : c.name = "get_current_weather")
    (hp : processCall owKey net c = .error e) :
    runToolCalls owKey net (pre ++ c :: rest) = ([], [], some e) := by
  induction pre with
  | nil =>
    rw [List.nil_append]
    unfold runToolCalls
    rw [if_pos hname, hp]
  | cons a pre ih =>
    rw [List.cons_append]
    unfold runToolCalls
    rw [if_neg (hpre a (List.mem_cons_self a pre))]
    exact ih (fun x hx => hpre x (List.mem_cons_of_mem a hx))

theorem gw_processCall_loads_none (owKey : Option String) (net : NetOutcome)
    (c : ToolCall) (hl : loads c.arguments = none) :
    processCall owKey net c = .error (.jsonDecodeError c.arguments) := by
  unfold processCall
  rw [hl]

end GroqWeather

namespace OpenAIStock

theorem os_loop_single (yf : YfHistory) (cur : Option String)
    (c : ToolCall) (out : String)
    (hname : c.name = "get_current_stock_price")
    (hp : processCall yf cur c = .ok out) :
    runToolCalls yf cur [c] = ([(c, out)], [Msg.tool c.id (some c.name) out], none) := by
  unfold runToolCalls
  rw [if_pos hname, hp]
  rfl

theorem os_loop_error_head (yf : YfHistory) (cur : Option String)
    (pre : List ToolCall) (c : ToolCall) (rest : List ToolCall) (e : PyErr)
    (hpre : ∀ x ∈ pre, ¬ x.name = "get_current_stock_price")
    (hname : c.name = "get_current_stock_price")
    (hp : processCall yf cur c = .error e) :
    runToolCalls yf cur (pre ++ c :: rest) = ([], [], some e) := by
  induction pre with
  | nil =>
    rw [List.nil_append]
    unfold runToolCalls
    rw [if_pos hname, hp]
  | cons a pre ih =>
    rw [List.cons_append]
    unfold runToolCalls
    rw [if_neg (hpre a (List.mem_cons_self a pre))]
    exact ih (fun x hx => hpre x (List.mem_cons_of_mem a hx))

theorem os_processCall_loads_none (yf : YfHistory) (cur : Option String)
    (c : ToolCall) (hl : loads c.arguments = none) :
    processCall yf cur c = .error (.jsonDecodeError c.arguments) := by
  unfold processCall
  rw [hl]

end OpenAIStock

/-! The claims. -/

/-- C9: when no OpenWeatherMap API key is configured, the (FastMCP) weather
executor called with location "Bengaluru" returns exactly the JSON object
with keys location/temperature_c/feels_like_c/description/note and the demo
values of the claim — a synthetic payload that self-identifies as demo data —
with zero outbound network calls, whatever the network collaborator would
have answered.  (The Groq CLI variant instead raises a configuration error
without a key; it has no demo path.) -/
theorem c9_demo_payload_without_key :
    ∀ net : NetOutcome,
      FastMCP.get_current_weather none net (.str "Bengaluru")
        = .ok ⟨Json.dumps (.obj
            [("location", .str "Bengaluru"),
             ("temperature_c", .num ⟨240, 1⟩),
             ("feels_like_c", .num ⟨252, 1⟩),
             ("description", .str "partly cloudy (demo)"),
             ("note", .str "Set OPENWEATHER_API_KEY for real data.")]), 0⟩
      ∧ Json.dumps (.obj
            [("location", .str "Bengaluru"),
             ("temperature_c", .num ⟨240, 1⟩),
             ("feels_like_c", .num ⟨252, 1⟩),
             ("description", .str "partly cloudy (demo)"),
             ("note", .str "Set OPENWEATHER_API_KEY for real data.")])
          = "\x7b\"location\": \"Bengaluru\", \"temperature_c\": 24.0, \"feels_like_c\": 25.2, \"description\": \"partly cloudy (demo)\", \"note\": \"Set OPENWEATHER_API_KEY for real data.\"\x7d" :=
  fun _ => ⟨rfl, rfl⟩

/-- C5 counterexample: a 2xx response whose body fails JSON decoding makes
`response.json()` — which both weather executors run outside their
`try`/`except` — raise, so the exception propagates out of the executor
instead of being converted to an ErrorPayload.  This refutes the claim that
any malformed response body is caught. -/
theorem c5_counterexample :
    GroqWeather.get_current_weather (some "k") (.okBody none) (.str "Paris")
        = .error .requestsJSONDecodeError
      ∧ FastMCP.get_current_weather (some "k") (.okBody none) (.str "Paris")
        = .error .requestsJSONDecodeError :=
  ⟨rfl, rfl⟩

/-- C5 amended: in both weather executors a timeout, connection failure or
non-2xx status (a `requests.RequestException` around the GET and
`raise_for_status`) is caught and converted into an ErrorPayload JSON string
with a human-readable message; a malformed response body, however, is decoded
outside the `try` block and its exception propagates out of the executor. -/
theorem c5_amended_transport_failures :
    (∀ key msg loc,
        GroqWeather.get_current_weather (some key) (.requestError msg) loc
          = .ok ⟨Json.dumps (.obj [("error", .str ("OpenWeatherMap request failed: " ++ msg))]), 1⟩)
  ∧ (∀ key msg loc,
        FastMCP.get_current_weather (some key) (.requestError msg) loc
          = .ok ⟨Json.dumps (.obj [("error", .str ("OpenWeatherMap request failed: " ++ msg))]), 1⟩)
  ∧ (∀ key loc,
        GroqWeather.get_current_weather (some key) (.okBody none) loc
          = .error .requestsJSONDecodeError)
  ∧ (∀ key loc,
        FastMCP.get_current_weather (some key) (.okBody none) loc
          = .error .requestsJSONDecodeError) :=
  ⟨fun _ _ _ => rfl, fun _ _ _ => rfl, fun _ _ => rfl, fun _ _ => rfl⟩

/-- C10: every string a tool executor returns — on the success, demo
fallback, transport-error, empty-result and missing-argument paths alike —
is the serialization of a JSON object, so a tool-result message's content
always decodes to a key/value map. -/
theorem c10_executor_outputs_are_json_objects :
    (∀ owKey net loc r, GroqWeather.get_current_weather owKey net loc = .ok r →
        ∃ fs, r.output = Json.dumps (.obj fs))
  ∧ (∀ owKey net loc r, FastMCP.get_current_weather owKey net loc = .ok r →
        ∃ fs, r.output = Json.dumps (.obj fs))
  ∧ (∀ yf cur sym, ∃ fs,
        (OpenAIStock.get_current_stock_price yf cur sym).output = Json.dumps (.obj fs)) := by
  refine ⟨?_, ?_, ?_⟩
  · intro owKey net loc r h
    unfold GroqWeather.get_current_weather at h
    cases owKey with
    | none => cases h
    | some k =>
      cases net with
      | requestError msg => cases h; exact ⟨_, rfl⟩
      | okBody b =>
        cases b with
        | none => cases h
        | some body => cases h; exact ⟨_, rfl⟩
  · intro owKey net loc r h
    unfold FastMCP.get_current_weather at h
    cases owKey with
    | none => cases h; exact ⟨_, rfl⟩
    | some k =>
      cases net with
      | requestError msg => cases h; exact ⟨_, rfl⟩
      | okBody b =>
        cases b with
        | none => cases h
        | some body => cases h; exact ⟨_, rfl⟩
  · intro yf cur sym
    unfold OpenAIStock.get_current_stock_price
    by_cases hf : pyFalsy sym
    · rw [if_pos hf]; exact ⟨_, rfl⟩
    · rw [if_neg hf]
      cases yf with
      | raise msg => exact ⟨_, rfl⟩
      | rows rs =>
        cases rs with
        | nil => exact ⟨_, rfl⟩
        | cons r0 rest => exact ⟨_, rfl⟩

/-- C10 witness: the Groq weather executor on a concrete transport failure
returns a string that is the serialization of a JSON object. -/
theorem c10_witness :
    GroqWeather.get_current_weather (some "k") (.requestError "down") (.str "Paris")
        = .ok ⟨"\x7b\"error\": \"OpenWeatherMap request failed: down\"\x7d", 1⟩
      ∧ ∃ fs, (ExecResult.mk "\x7b\"error\": \"OpenWeatherMap request failed: down\"\x7d" 1).output
          = Json.dumps (.obj fs) :=
  ⟨rfl, c10_executor_outputs_are_json_objects.1 (some "k") (.requestError "down") (.str "Paris") _ rfl⟩

/-- C1 counterexample: a conversation whose first response requests exactly
one invocation of the declared tool `get_current_weather`, but with raw
arguments that are not valid JSON.  The orchestrator performs one transport
call, zero tool executions, and crashes on the uncaught decode error — not
two transport calls and one execution as the claim states. -/
theorem c1_counterexample :
    ((GroqWeather.call_model_with_tools (some "k") (.requestError "down") "q"
        ⟨none, some [⟨"call1", "function", "get_current_weather", "not json"⟩]⟩
        (some "ans")).transports.length = 1)
    ∧ ((GroqWeather.call_model_with_tools (some "k") (.requestError "down") "q"
        ⟨none, some [⟨"call1", "function", "get_current_weather", "not json"⟩]⟩
        (some "ans")).execs = [])
    ∧ ((GroqWeather.call_model_with_tools (some "k") (.requestError "down") "q"
        ⟨none, some [⟨"call1", "function", "get_current_weather", "not json"⟩]⟩
        (some "ans")).outcome = .error (.jsonDecodeError "not json"))
    ∧ ¬ (((GroqWeather.call_model_with_tools (some "k") (.requestError "down") "q"
        ⟨none, some [⟨"call1", "function", "get_current_weather", "not json"⟩]⟩
        (some "ans")).transports.length = 2)
        ∧ ((GroqWeather.call_model_with_tools (some "k") (.requestError "down") "q"
        ⟨none, some [⟨"call1", "function", "get_current_weather", "not json"⟩]⟩
        (some "ans")).execs.length = 1)) := by decide

/-- C1 amended: for every conversation whose first response requests exactly
one tool invocation of the declared tool, provided the raw arguments decode
and bind the declared parameter and the execution returns a result, each of
the three orchestrators performs exactly two transport calls and exactly one
tool execution, and the second transport call's message sequence is the first
round's sequence plus the assistant echo and one tool-result message
(length + 2). -/
theorem c1_amended_two_calls_one_exec :
    (∀ owKey net q c content r2 out,
        c.name = "get_current_weather" →
        GroqWeather.processCall owKey net c = .ok out →
        (GroqWeather.call_model_with_tools owKey net q ⟨content, some [c]⟩ r2).execs = [(c, out)]
        ∧ ∃ t1 t2,
            (GroqWeather.call_model_with_tools owKey net q ⟨content, some [c]⟩ r2).transports
              = [t1, t2]
            ∧ t2.messages.length = t1.messages.length + 2)
  ∧ (∀ yf cur q c content r2 out,
        c.name = "get_current_stock_price" →
        OpenAIStock.processCall yf cur c = .ok out →
        (OpenAIStock.call_model_with_tools yf cur q ⟨content, some [c]⟩ r2).execs = [(c, out)]
        ∧ ∃ t1 t2,
            (OpenAIStock.call_model_with_tools yf cur q ⟨content, some [c]⟩ r2).transports
              = [t1, t2]
            ∧ t2.messages.length = t1.messages.length + 2)
  ∧ (∀ owKey net q c content r2 args loc r,
        loads c.arguments = some args →
        bindSingleKwarg "location" args = .ok loc →
        FastMCP.get_current_weather owKey net loc = .ok r →
        (FastMCP.get_weather_with_groq owKey net q ⟨content, some [c]⟩ r2).execs = [(c, r.output)]
        ∧ ∃ t1 t2,
            (FastMCP.get_weather_with_groq owKey net q ⟨content, some [c]⟩ r2).transports
              = [t1, t2]
            ∧ t2.messages.length = t1.messages.length + 2) := by
  refine ⟨?_, ?_, ?_⟩
  · intro owKey net q c content r2 out hname hp
    have hrun := GroqWeather.gw_loop_single owKey net c out hname hp
    have hres := GroqWeather.gw_result_two_rounds owKey net q ⟨content, some [c]⟩ r2 c [] _ _ _ rfl hrun
    rw [hres]
    exact ⟨rfl, _, _, rfl, rfl⟩
  · intro yf cur q c content r2 out hname hp
    have hrun := OpenAIStock.os_loop_single yf cur c out hname hp
    have hres := OpenAIStock.os_result_two_rounds yf cur q ⟨content, some [c]⟩ r2 _ _ _ hrun
    rw [hres]
    exact ⟨rfl, _, _, rfl, rfl⟩
  · intro owKey net q c content r2 args loc r hl hb hx
    have hres := FastMCP.mcp_result_success owKey net q ⟨content, some [c]⟩ r2 c [] args loc r rfl hl hb hx
    rw [hres]
    exact ⟨rfl, _, _, rfl, rfl⟩

/-- C1 witness: on a concrete single declared-tool conversation whose
arguments decode (the executor returning a transport-failure payload still
counts as a returning execution), the Groq orchestrator records exactly that
one execution. -/
theorem c1_witness :
    (GroqWeather.processCall (some "k") (.requestError "down")
        ⟨"call1", "function", "get_current_weather", "\x7b\"location\": \"Paris\"\x7d"⟩
      = .ok "\x7b\"error\": \"OpenWeatherMap request failed: down\"\x7d")
    ∧ (GroqWeather.call_model_with_tools (some "k") (.requestError "down") "q"
        ⟨none, some [⟨"call1", "function", "get_current_weather", "\x7b\"location\": \"Paris\"\x7d"⟩]⟩
        (some "ans")).execs
      = [(⟨"call1", "function", "get_current_weather", "\x7b\"location\": \"Paris\"\x7d"⟩,
          "\x7b\"error\": \"OpenWeatherMap request failed: down\"\x7d")] :=
  ⟨rfl,
    (c1_amended_two_calls_one_exec.1 (some "k") (.requestError "down") "q"
      ⟨"call1", "function", "get_current_weather", "\x7b\"location\": \"Paris\"\x7d"⟩
      none (some "ans") "\x7b\"error\": \"OpenWeatherMap request failed: down\"\x7d"
      rfl rfl).1⟩

/-- C2 counterexample: in the FastMCP orchestrator a first response with zero
tool invocations and empty textual content is not surfaced unchanged — the
placeholder string is returned instead (`content or "Model did not return any
content."`). -/
theorem c2_counterexample :
    ((FastMCP.get_weather_with_groq none (.requestError "x") "hi" ⟨some "", none⟩ none).outcome
        = .ok (.roundOneText "Model did not return any content."))
    ∧ ((FastMCP.get_weather_with_groq none (.requestError "x") "hi" ⟨some "", none⟩ none).transports.length = 1)
    ∧ "Model did not return any content." ≠ "" := by decide

/-- C2 amended: for every conversation whose first response requests zero
tool invocations, each orchestrator performs exactly one transport call and
executes no tool; the two CLI variants surface the response's content
unchanged, while the FastMCP variant surfaces it unchanged only when it is a
non-empty string and substitutes the placeholder "Model did not return any
content." when the content is None or empty. -/
theorem c2_amended_zero_tool_requests :
    (∀ owKey net q r1 r2, r1.tool_calls.getD [] = ([] : List ToolCall) →
        (GroqWeather.call_model_with_tools owKey net q r1 r2).transports.length = 1
        ∧ (GroqWeather.call_model_with_tools owKey net q r1 r2).execs = []
        ∧ (GroqWeather.call_model_with_tools owKey net q r1 r2).outcome
            = .ok (.roundOne r1.content))
  ∧ (∀ yf cur q r1 r2, r1.tool_calls.getD [] = ([] : List ToolCall) →
        (OpenAIStock.call_model_with_tools yf cur q r1 r2).transports.length = 1
        ∧ (OpenAIStock.call_model_with_tools yf cur q r1 r2).execs = []
        ∧ (OpenAIStock.call_model_with_tools yf cur q r1 r2).outcome
            = .ok (.roundOne r1.content))
  ∧ (∀ owKey net q r1 r2, r1.tool_calls.getD [] = ([] : List ToolCall) →
        (FastMCP.get_weather_with_groq owKey net q r1 r2).transports.length = 1
        ∧ (FastMCP.get_weather_with_groq owKey net q r1 r2).execs = []
        ∧ (∀ s, r1.content = some s → ¬ s = "" →
            (FastMCP.get_weather_with_groq owKey net q r1 r2).outcome
              = .ok (.roundOneText s))
        ∧ ((r1.content = none ∨ r1.content = some "") →
            (FastMCP.get_weather_with_groq owKey net q r1 r2).outcome
              = .ok (.roundOneText "Model did not return any content."))) := by
  refine ⟨?_, ?_, ?_⟩
  · intro owKey net q r1 r2 h
    rw [GroqWeather.gw_result_no_calls owKey net q r1 r2 h]
    exact ⟨rfl, rfl, rfl⟩
  · intro yf cur q r1 r2 h
    have hrun : OpenAIStock.runToolCalls yf cur (r1.tool_calls.getD []) = ([], [], none) := by
      rw [h]; rfl
    rw [OpenAIStock.os_result_loop_empty yf cur q r1 r2 [] hrun]
    exact ⟨rfl, rfl, rfl⟩
  · intro owKey net q r1 r2 h
    rw [FastMCP.mcp_result_no_calls owKey net q r1 r2 h]
    refine ⟨rfl, rfl, ?_, ?_⟩
    · intro s hs hne
      simp only [hs, pyOrStr, if_neg hne]
    · intro hc
      rcases hc with hc | hc <;> simp [hc, pyOrStr]

/-- C2 witness: a concrete zero-tool-request conversation in the Groq CLI
orchestrator surfaces the round-one content unchanged after one transport
call. -/
theorem c2_witness :
    ((⟨some "hello", none⟩ : AssistantMessage).tool_calls.getD [] = ([] : List ToolCall))
    ∧ (GroqWeather.call_model_with_tools (some "k") (.requestError "d") "q"
        ⟨some "hello", none⟩ none).outcome = .ok (.roundOne (some "hello")) :=
  ⟨rfl,
    (c2_amended_zero_tool_requests.1 (some "k") (.requestError "d") "q"
      ⟨some "hello", none⟩ none rfl).2.2⟩

/-- C3 counterexample: the FastMCP orchestrator, asked for a tool name the
Tool Registry never declared (`made_up_tool`), does not skip it: it executes
the weather tool anyway and proceeds to a second transport call. -/
theorem c3_counterexample :
    ((FastMCP.get_weather_with_groq none (.requestError "x") "q"
        ⟨some "hi", some [⟨"id9", "function", "made_up_tool", "\x7b\"location\": \"Oslo\"\x7d"⟩]⟩
        (some "ans")).execs.length = 1)
    ∧ ((FastMCP.get_weather_with_groq none (.requestError "x") "q"
        ⟨some "hi", some [⟨"id9", "function", "made_up_tool", "\x7b\"location\": \"Oslo\"\x7d"⟩]⟩
        (some "ans")).transports.length = 2)
    ∧ "made_up_tool" ≠ "get_current_weather" := by decide

/-- C3 amended: the two CLI orchestrators skip every request whose name is
not the declared tool — nothing undeclared is ever executed — and when all
requests are undeclared they terminate after one transport call with no
execution: the OpenAI variant surfaces the first response's content, the Groq
variant a fixed stop notice instead.  The FastMCP orchestrator performs no
name check at all and executes its weather tool for the first request
whatever its name. -/
theorem c3_amended_undeclared_tools :
    (∀ owKey net calls p, p ∈ (GroqWeather.runToolCalls owKey net calls).1 →
        p.1.name = "get_current_weather")
  ∧ (∀ owKey net q r1 r2 tc0 tcs,
        r1.tool_calls.getD [] = tc0 :: tcs →
        (∀ x ∈ tc0 :: tcs, ¬ x.name = "get_current_weather") →
        (GroqWeather.call_model_with_tools owKey net q r1 r2).transports.length = 1
        ∧ (GroqWeather.call_model_with_tools owKey net q r1 r2).execs = []
        ∧ (GroqWeather.call_model_with_tools owKey net q r1 r2).outcome = .ok .stopNotice)
  ∧ (∀ yf cur calls p, p ∈ (OpenAIStock.runToolCalls yf cur calls).1 →
        p.1.name = "get_current_stock_price")
  ∧ (∀ yf cur q r1 r2,
        (∀ x ∈ r1.tool_calls.getD [], ¬ x.name = "get_current_stock_price") →
        (OpenAIStock.call_model_with_tools yf cur q r1 r2).transports.length = 1
        ∧ (OpenAIStock.call_model_with_tools yf cur q r1 r2).execs = []
        ∧ (OpenAIStock.call_model_with_tools yf cur q r1 r2).outcome
            = .ok (.roundOne r1.content))
  ∧ (∀ owKey net q r2 content c cs args loc r,
        loads c.arguments = some args →
        bindSingleKwarg "location" args = .ok loc →
        FastMCP.get_current_weather owKey net loc = .ok r →
        (FastMCP.get_weather_with_groq owKey net q ⟨content, some (c :: cs)⟩ r2).execs
          = [(c, r.output)]) := by
  refine ⟨?_, ?_, ?_, ?_, ?_⟩
  · intro owKey net calls p hp
    exact GroqWeather.gw_loop_names owKey net calls p hp
  · intro owKey net q r1 r2 tc0 tcs hc hun
    have hrun := GroqWeather.gw_loop_skip_all owKey net (tc0 :: tcs) hun
    rw [GroqWeather.gw_result_loop_empty owKey net q r1 r2 tc0 tcs [] hc hrun]
    exact ⟨rfl, rfl, rfl⟩
  · intro yf cur calls p hp
    exact OpenAIStock.os_loop_names yf cur calls p hp
  · intro yf cur q r1 r2 hun
    have hrun := OpenAIStock.os_loop_skip_all yf cur (r1.tool_calls.getD []) hun
    rw [OpenAIStock.os_result_loop_empty yf cur q r1 r2 [] hrun]
    exact ⟨rfl, rfl, rfl⟩
  · intro owKey net q r2 content c cs args loc r hl hb hx
    rw [FastMCP.mcp_result_success owKey net q ⟨content, some (c :: cs)⟩ r2 c cs args loc r rfl hl hb hx]

/-- C3 witness: a concrete conversation whose only request names an
undeclared tool is skipped by the Groq CLI orchestrator (no execution, one
transport call, stop notice), and the FastMCP orchestrator executes a request
named `made_up_tool` anyway. -/
theorem c3_witness :
    ((GroqWeather.call_model_with_tools (some "k") (.requestError "d") "q"
        ⟨some "hi", some [⟨"z1", "function", "mystery_tool", "\x7b\x7d"⟩]⟩ none).outcome
      = .ok .stopNotice)
    ∧ (FastMCP.get_weather_with_groq none (.requestError "x") "q"
        ⟨some "hi", some [⟨"id9", "function", "made_up_tool", "\x7b\"location\": \"Oslo\"\x7d"⟩]⟩
        (some "ans")).execs
      = [(⟨"id9", "function", "made_up_tool", "\x7b\"location\": \"Oslo\"\x7d"⟩,
          "\x7b\"location\": \"Oslo\", \"temperature_c\": 24.0, \"feels_like_c\": 25.2, \"description\": \"partly cloudy (demo)\", \"note\": \"Set OPENWEATHER_API_KEY for real data.\"\x7d")] :=
  ⟨(c3_amended_undeclared_tools.2.1 (some "k") (.requestError "d") "q"
      ⟨some "hi", some [⟨"z1", "function", "mystery_tool", "\x7b\x7d"⟩]⟩ none
      ⟨"z1", "function", "mystery_tool", "\x7b\x7d"⟩ [] rfl (by decide)).2.2,
    c3_amended_undeclared_tools.2.2.2.2 none (.requestError "x") "q" (some "ans") (some "hi")
      ⟨"id9", "function", "made_up_tool", "\x7b\"location\": \"Oslo\"\x7d"⟩ []
      (.obj [("location", .str "Oslo")]) (.str "Oslo") _ rfl rfl rfl⟩

/-- C4 counterexample: a tool invocation request with raw arguments that are
not valid JSON.  The executor is never invoked for it, but the decode error
is not caught: the orchestrator's outcome is the propagated exception — the
whole process does crash, contrary to the claim. -/
theorem c4_counterexample :
    ((OpenAIStock.call_model_with_tools (.rows []) none "q"
        ⟨none, some [⟨"c2", "function", "get_current_stock_price", "oops"⟩]⟩ none).outcome
      = .error (.jsonDecodeError "oops"))
    ∧ ((OpenAIStock.call_model_with_tools (.rows []) none "q"
        ⟨none, some [⟨"c2", "function", "get_current_stock_price", "oops"⟩]⟩ none).execs = []) := by
  decide

theorem GroqWeather.gw_loop_error_after (owKey : Option String) (net : NetOutcome)
    (pre : List ToolCall) (c : ToolCall) (rest : List ToolCall) (e : PyErr)
    (hpre : ∀ x ∈ pre, x.name = "get_current_weather" →
        ∃ out, GroqWeather.processCall owKey net x = .ok out)
    (hname : c.name = "get_current_weather")
    (hp : GroqWeather.processCall owKey net c = .error e) :
    GroqWeather.runToolCalls owKey net (pre ++ c :: rest)
      = ((GroqWeather.runToolCalls owKey net pre).1,
         (GroqWeather.runToolCalls owKey net pre).2.1, some e) := by
  induction pre with
  | nil =>
    rw [List.nil_append]
    unfold GroqWeather.runToolCalls
    rw [if_pos hname, hp]
  | cons a pre2 ih =>
    have ih2 := ih (fun x hx => hpre x (List.mem_cons_of_mem a hx))
    rw [List.cons_append]
    by_cases ha : a.name = "get_current_weather"
    · obtain ⟨out, hout⟩ := hpre a (List.mem_cons_self a pre2) ha
      have hcons : ∀ L : List ToolCall,
          GroqWeather.runToolCalls owKey net (a :: L)
            = ((a, out) :: (GroqWeather.runToolCalls owKey net L).1,
               Msg.tool a.id (some a.name) out :: (GroqWeather.runToolCalls owKey net L).2.1,
               (GroqWeather.runToolCalls owKey net L).2.2) := by
        intro L
        conv_lhs => unfold GroqWeather.runToolCalls
        rw [if_pos ha, hout]
      rw [hcons (pre2 ++ c :: rest), hcons pre2, ih2]
    · have hcons : ∀ L : List ToolCall,
          GroqWeather.runToolCalls owKey net (a :: L)
            = GroqWeather.runToolCalls owKey net L := by
        intro L
        conv_lhs => unfold GroqWeather.runToolCalls
        rw [if_neg ha]
      rw [hcons (pre2 ++ c :: rest), hcons pre2]
      exact ih2

theorem OpenAIStock.os_loop_error_after (yf : YfHistory) (cur : Option String)
    (pre : List ToolCall) (c : ToolCall) (rest : List ToolCall) (e : PyErr)
    (hpre : ∀ x ∈ pre, x.name = "get_current_stock_price" →
        ∃ out, OpenAIStock.processCall yf cur x = .ok out)
    (hname : c.name = "get_current_stock_price")
    (hp : OpenAIStock.processCall yf cur c = .error e) :
    OpenAIStock.runToolCalls yf cur (pre ++ c :: rest)
      = ((OpenAIStock.runToolCalls yf cur pre).1,
         (OpenAIStock.runToolCalls yf cur pre).2.1, some e) := by
  induction pre with
  | nil =>
    rw [List.nil_append]
    unfold OpenAIStock.runToolCalls
    rw [if_pos hname, hp]
  | cons a pre2 ih =>
    have ih2 := ih (fun x hx => hpre x (List.mem_cons_of_mem a hx))
    rw [List.cons_append]
    by_cases ha : a.name = "get_current_stock_price"
    · obtain ⟨out, hout⟩ := hpre a (List.mem_cons_self a pre2) ha
      have hcons : ∀ L : List ToolCall,
          OpenAIStock.runToolCalls yf cur (a :: L)
            = ((a, out) :: (OpenAIStock.runToolCalls yf cur L).1,
               Msg.tool a.id (some a.name) out :: (OpenAIStock.runToolCalls yf cur L).2.1,
               (OpenAIStock.runToolCalls yf cur L).2.2) := by
        intro L
        conv_lhs => unfold OpenAIStock.runToolCalls
        rw [if_pos ha, hout]
      rw [hcons (pre2 ++ c :: rest), hcons pre2, ih2]
    · have hcons : ∀ L : List ToolCall,
          OpenAIStock.runToolCalls yf cur (a :: L)
            = OpenAIStock.runToolCalls yf cur L := by
        intro L
        conv_lhs => unfold OpenAIStock.runToolCalls
        rw [if_neg ha]
      rw [hcons (pre2 ++ c :: rest), hcons pre2]
      exact ih2

theorem GroqWeather.gw_result_loop_error_ne (owKey : Option String) (net : NetOutcome)
    (q : String) (r1 : AssistantMessage) (r2 : Option String)
    (es : List (ToolCall × String)) (ms : List Msg) (e : PyErr)
    (hne : ¬ r1.tool_calls.getD [] = [])
    (hrun : GroqWeather.runToolCalls owKey net (r1.tool_calls.getD []) = (es, ms, some e)) :
    GroqWeather.call_model_with_tools owKey net q r1 r2
      = ⟨[⟨"openai/gpt-oss-20b", ⟨0, 0⟩, 300, true,
            [.system GroqWeather.systemPrompt, .user q]⟩],
          es, ms, .error e⟩ := by
  rcases hx : r1.tool_calls.getD [] with _ | ⟨tc0, tcs⟩
  · exact absurd hx hne
  · rw [hx] at hrun
    exact GroqWeather.gw_result_loop_error owKey net q r1 r2 tc0 tcs es ms e hx hrun

/-- C4 amended: for every tool invocation request with malformed raw
arguments that the orchestrator reaches — in the CLI variants any
declared-name request whose arguments fail to decode, after any earlier
declared requests that executed successfully; in the FastMCP variant the
first request — the Tool Executor is never invoked for that call, no second
transport call happens, executions already performed for earlier requests are
kept, and the `json.loads` decode error propagates uncaught, aborting
(crashing) the whole run.  (No ToolArgumentError is handled beyond the
propagated exception.) -/
theorem c4_amended_malformed_arguments_crash :
    (∀ owKey net q content r2 pre c rest,
        (∀ x ∈ pre, x.name = "get_current_weather" →
            ∃ out, GroqWeather.processCall owKey net x = .ok out) →
        c.name = "get_current_weather" →
        loads c.arguments = none →
        (GroqWeather.call_model_with_tools owKey net q
            ⟨content, some (pre ++ c :: rest)⟩ r2).outcome
          = .error (.jsonDecodeError c.arguments)
        ∧ (GroqWeather.call_model_with_tools owKey net q
            ⟨content, some (pre ++ c :: rest)⟩ r2).transports.length = 1
        ∧ (GroqWeather.call_model_with_tools owKey net q
            ⟨content, some (pre ++ c :: rest)⟩ r2).execs.map Prod.fst
            = pre.filter (fun x => x.name == "get_current_weather")
        ∧ ¬ c ∈ (GroqWeather.call_model_with_tools owKey net q
            ⟨content, some (pre ++ c :: rest)⟩ r2).execs.map Prod.fst)
  ∧ (∀ yf cur q content r2 pre c rest,
        (∀ x ∈ pre, x.name = "get_current_stock_price" →
            ∃ out, OpenAIStock.processCall yf cur x = .ok out) →
        c.name = "get_current_stock_price" →
        loads c.arguments = none →
        (OpenAIStock.call_model_with_tools yf cur q
            ⟨content, some (pre ++ c :: rest)⟩ r2).outcome
          = .error (.jsonDecodeError c.arguments)
        ∧ (OpenAIStock.call_model_with_tools yf cur q
            ⟨content, some (pre ++ c :: rest)⟩ r2).transports.length = 1
        ∧ (OpenAIStock.call_model_with_tools yf cur q
            ⟨content, some (pre ++ c :: rest)⟩ r2).execs.map Prod.fst
            = pre.filter (fun x => x.name == "get_current_stock_price")
        ∧ ¬ c ∈ (OpenAIStock.call_model_with_tools yf cur q
            ⟨content, some (pre ++ c :: rest)⟩ r2).execs.map Prod.fst)
  ∧ (∀ owKey net q content r2 c rest,
        loads c.arguments = none →
        (FastMCP.get_weather_with_groq owKey net q ⟨content, some (c :: rest)⟩ r2).outcome
          = .error (.jsonDecodeError c.arguments)
        ∧ (FastMCP.get_weather_with_groq owKey net q ⟨content, some (c :: rest)⟩ r2).execs = []
        ∧ (FastMCP.get_weather_with_groq owKey net q ⟨content, some (c :: rest)⟩ r2).transports.length = 1) := by
  refine ⟨?_, ?_, ?_⟩
  · intro owKey net q content r2 pre c rest hpre hname hl
    have hp := GroqWeather.gw_processCall_loads_none owKey net c hl
    have hloop := GroqWeather.gw_loop_error_after owKey net pre c rest _ hpre hname hp
    have hsucc := GroqWeather.gw_loop_success owKey net pre hpre
    have hne : ¬ (⟨content, some (pre ++ c :: rest)⟩ : AssistantMessage).tool_calls.getD [] = [] := by
      simp
    rw [GroqWeather.gw_result_loop_error_ne owKey net q ⟨content, some (pre ++ c :: rest)⟩ r2
      _ _ _ hne hloop]
    refine ⟨rfl, rfl, hsucc.2, ?_⟩
    intro hcmem
    have h0 : c ∈ (GroqWeather.runToolCalls owKey net pre).1.map Prod.fst := hcmem
    rw [hsucc.2] at h0
    obtain ⟨out, hout⟩ := hpre c (List.mem_of_mem_filter h0) hname
    rw [hp] at hout
    exact Except.noConfusion hout
  · intro yf cur q content r2 pre c rest hpre hname hl
    have hp := OpenAIStock.os_processCall_loads_none yf cur c hl
    have hloop := OpenAIStock.os_loop_error_after yf cur pre c rest _ hpre hname hp
    have hsucc := OpenAIStock.os_loop_success yf cur pre hpre
    rw [OpenAIStock.os_result_loop_error yf cur q ⟨content, some (pre ++ c :: rest)⟩ r2
      _ _ _ hloop]
    refine ⟨rfl, rfl, hsucc.2, ?_⟩
    intro hcmem
    have h0 : c ∈ (OpenAIStock.runToolCalls yf cur pre).1.map Prod.fst := hcmem
    rw [hsucc.2] at h0
    obtain ⟨out, hout⟩ := hpre c (List.mem_of_mem_filter h0) hname
    rw [hp] at hout
    exact Except.noConfusion hout
  · intro owKey net q content r2 c rest hl
    rw [FastMCP.mcp_result_loads_fail owKey net q ⟨content, some (c :: rest)⟩ r2 c rest rfl hl]
    exact ⟨rfl, rfl, rfl⟩

/-- C4 witness: a two-request reply in the Groq CLI variant — a first
declared request whose execution succeeds followed by a declared request with
malformed arguments.  The run aborts with the decode error, the first
execution is kept, and the malformed request is never executed. -/
theorem c4_witness :
    (loads "\x7b broken" = none)
    ∧ ((GroqWeather.call_model_with_tools (some "k") (.requestError "d") "q"
        ⟨none, some [⟨"a1", "function", "get_current_weather", "\x7b\"location\": \"Pune\"\x7d"⟩,
                     ⟨"b1", "function", "get_current_weather", "\x7b broken"⟩]⟩ none).outcome
      = .error (.jsonDecodeError "\x7b broken"))
    ∧ ((GroqWeather.call_model_with_tools (some "k") (.requestError "d") "q"
        ⟨none, some [⟨"a1", "function", "get_current_weather", "\x7b\"location\": \"Pune\"\x7d"⟩,
                     ⟨"b1", "function", "get_current_weather", "\x7b broken"⟩]⟩ none).execs.map Prod.fst
      = [⟨"a1", "function", "get_current_weather", "\x7b\"location\": \"Pune\"\x7d"⟩])
    ∧ ¬ (⟨"b1", "function", "get_current_weather", "\x7b broken"⟩ : ToolCall)
        ∈ (GroqWeather.call_model_with_tools (some "k") (.requestError "d") "q"
        ⟨none, some [⟨"a1", "function", "get_current_weather", "\x7b\"location\": \"Pune\"\x7d"⟩,
                     ⟨"b1", "function", "get_current_weather", "\x7b broken"⟩]⟩ none).execs.map Prod.fst :=
  ⟨rfl,
    (c4_amended_malformed_arguments_crash.1 (some "k") (.requestError "d") "q" none none
      [⟨"a1", "function", "get_current_weather", "\x7b\"location\": \"Pune\"\x7d"⟩]
      ⟨"b1", "function", "get_current_weather", "\x7b broken"⟩ []
      (by
        intro x hx hn
        simp only [List.mem_singleton] at hx
        subst hx
        exact ⟨"\x7b\"error\": \"OpenWeatherMap request failed: d\"\x7d", rfl⟩)
      rfl rfl).1,
    ((c4_amended_malformed_arguments_crash.1 (some "k") (.requestError "d") "q" none none
      [⟨"a1", "function", "get_current_weather", "\x7b\"location\": \"Pune\"\x7d"⟩]
      ⟨"b1", "function", "get_current_weather", "\x7b broken"⟩ []
      (by
        intro x hx hn
        simp only [List.mem_singleton] at hx
        subst hx
        exact ⟨"\x7b\"error\": \"OpenWeatherMap request failed: d\"\x7d", rfl⟩)
      rfl rfl).2.2.1).trans (by decide),
    (c4_amended_malformed_arguments_crash.1 (some "k") (.requestError "d") "q" none none
      [⟨"a1", "function", "get_current_weather", "\x7b\"location\": \"Pune\"\x7d"⟩]
      ⟨"b1", "function", "get_current_weather", "\x7b broken"⟩ []
      (by
        intro x hx hn
        simp only [List.mem_singleton] at hx
        subst hx
        exact ⟨"\x7b\"error\": \"OpenWeatherMap request failed: d\"\x7d", rfl⟩)
      rfl rfl).2.2.2⟩

theorem GroqWeather.gw_result_execs (owKey : Option String) (net : NetOutcome)
    (q : String) (r1 : AssistantMessage) (r2 : Option String) :
    (GroqWeather.call_model_with_tools owKey net q r1 r2).execs
      = (GroqWeather.runToolCalls owKey net (r1.tool_calls.getD [])).1 := by
  unfold call_model_with_tools
  cases hc : r1.tool_calls.getD [] with
  | nil => rfl
  | cons tc0 tcs =>
    rcases hrun : runToolCalls owKey net (tc0 :: tcs) with ⟨es, ms, err⟩
    cases err with
    | some e => simp [hrun]
    | none =>
      cases ms with
      | nil => simp [hrun]
      | cons m ms2 => simp [hrun]

theorem OpenAIStock.os_result_execs (yf : YfHistory) (cur : Option String)
    (q : String) (r1 : AssistantMessage) (r2 : Option String) :
    (OpenAIStock.call_model_with_tools yf cur q r1 r2).execs
      = (OpenAIStock.runToolCalls yf cur (r1.tool_calls.getD [])).1 := by
  unfold call_model_with_tools
  rcases hrun : runToolCalls yf cur (r1.tool_calls.getD []) with ⟨es, ms, err⟩
  cases err with
  | some e => simp [hrun]
  | none =>
    cases ms with
    | nil => simp [hrun]
    | cons m ms2 => simp [hrun]

/-- C6 counterexample: the FastMCP orchestrator given two requested
invocations executes only the first — not once per request. -/
theorem c6_counterexample :
    ((FastMCP.get_weather_with_groq none (.requestError "x") "q"
        ⟨none, some [⟨"a", "function", "get_current_weather", "\x7b\"location\": \"Rome\"\x7d"⟩,
                     ⟨"b", "function", "get_current_weather", "\x7b\"location\": \"Lima\"\x7d"⟩]⟩
        none).execs.length = 1)
    ∧ ¬ ((FastMCP.get_weather_with_groq none (.requestError "x") "q"
        ⟨none, some [⟨"a", "function", "get_current_weather", "\x7b\"location\": \"Rome\"\x7d"⟩,
                     ⟨"b", "function", "get_current_weather", "\x7b\"location\": \"Lima\"\x7d"⟩]⟩
        none).execs.length = 2) := by decide

/-- C6 amended: when the first response carries tool invocation requests, the
two CLI orchestrators invoke the Tool Executor synchronously once per
declared request, in request order (provided each declared request's
arguments decode, bind, and execute to a returned result), collecting one
(request, result) pair and one tool-result message per executed request; the
FastMCP orchestrator instead executes only the first request. -/
theorem c6_amended_one_execution_per_request :
    (∀ owKey net q r1 r2 calls,
        r1.tool_calls.getD [] = calls →
        (∀ c ∈ calls, c.name = "get_current_weather" →
            ∃ out, GroqWeather.processCall owKey net c = .ok out) →
        (GroqWeather.call_model_with_tools owKey net q r1 r2).execs.map Prod.fst
            = calls.filter (fun c => c.name == "get_current_weather")
        ∧ (GroqWeather.call_model_with_tools owKey net q r1 r2).toolMessages
            = (GroqWeather.call_model_with_tools owKey net q r1 r2).execs.map
                (fun p => Msg.tool p.1.id (some p.1.name) p.2))
  ∧ (∀ yf cur q r1 r2 calls,
        r1.tool_calls.getD [] = calls →
        (∀ c ∈ calls, c.name = "get_current_stock_price" →
            ∃ out, OpenAIStock.processCall yf cur c = .ok out) →
        (OpenAIStock.call_model_with_tools yf cur q r1 r2).execs.map Prod.fst
            = calls.filter (fun c => c.name == "get_current_stock_price")
        ∧ (OpenAIStock.call_model_with_tools yf cur q r1 r2).toolMessages
            = (OpenAIStock.call_model_with_tools yf cur q r1 r2).execs.map
                (fun p => Msg.tool p.1.id (some p.1.name) p.2))
  ∧ (∀ owKey net q content r2 c cs args loc r,
        loads c.arguments = some args →
        bindSingleKwarg "location" args = .ok loc →
        FastMCP.get_current_weather owKey net loc = .ok r →
        (FastMCP.get_weather_with_groq owKey net q ⟨content, some (c :: cs)⟩ r2).execs
            = [(c, r.output)]
        ∧ (FastMCP.get_weather_with_groq owKey net q ⟨content, some (c :: cs)⟩ r2).toolMessages
            = [Msg.tool c.id none r.output]) := by
  refine ⟨?_, ?_, ?_⟩
  · intro owKey net q r1 r2 calls hc hall
    have hs := GroqWeather.gw_loop_success owKey net calls hall
    refine ⟨?_, GroqWeather.gw_result_toolMessages owKey net q r1 r2⟩
    rw [GroqWeather.gw_result_execs, hc]
    exact hs.2
  · intro yf cur q r1 r2 calls hc hall
    have hs := OpenAIStock.os_loop_success yf cur calls hall
    refine ⟨?_, OpenAIStock.os_result_toolMessages yf cur q r1 r2⟩
    rw [OpenAIStock.os_result_execs, hc]
    exact hs.2
  · intro owKey net q content r2 c cs args loc r hl hb hx
    rw [FastMCP.mcp_result_success owKey net q ⟨content, some (c :: cs)⟩ r2 c cs args loc r rfl hl hb hx]
    exact ⟨rfl, rfl⟩

/-- C6 witness: two declared-tool requests in the Groq CLI orchestrator yield
two executions paired with their requests, in request order. -/
theorem c6_witness :
    (GroqWeather.call_model_with_tools (some "k") (.requestError "d") "q"
        ⟨none, some [⟨"a1", "function", "get_current_weather", "\x7b\"location\": \"Rome\"\x7d"⟩,
                     ⟨"a2", "function", "get_current_weather", "\x7b\"location\": \"Lima\"\x7d"⟩]⟩
        none).execs.map Prod.fst
      = [⟨"a1", "function", "get_current_weather", "\x7b\"location\": \"Rome\"\x7d"⟩,
         ⟨"a2", "function", "get_current_weather", "\x7b\"location\": \"Lima\"\x7d"⟩] :=
  ((c6_amended_one_execution_per_request.1 (some "k") (.requestError "d") "q"
      ⟨none, some [⟨"a1", "function", "get_current_weather", "\x7b\"location\": \"Rome\"\x7d"⟩,
                   ⟨"a2", "function", "get_current_weather", "\x7b\"location\": \"Lima\"\x7d"⟩]⟩
      none
      [⟨"a1", "function", "get_current_weather", "\x7b\"location\": \"Rome\"\x7d"⟩,
       ⟨"a2", "function", "get_current_weather", "\x7b\"location\": \"Lima\"\x7d"⟩]
      rfl
      (by
        intro c hcmem hn
        simp only [List.mem_cons, List.not_mem_nil, or_false] at hcmem
        rcases hcmem with rfl | rfl
        · exact ⟨"\x7b\"error\": \"OpenWeatherMap request failed: d\"\x7d", rfl⟩
        · exact ⟨"\x7b\"error\": \"OpenWeatherMap request failed: d\"\x7d", rfl⟩)).1).trans
    (by decide)

theorem OpenAIStock.stock_price_empty (cur : Option String) (sym : String)
    (hns : ¬ sym = "") :
    get_current_stock_price (.rows []) cur (.str sym)
      = ⟨Json.dumps (.obj [("error", .str ("No pricing data returned for " ++ sym ++ "."))]), 1⟩ := by
  have hb : pyFalsy (.str sym) = false := by simp [pyFalsy, hns]
  unfold get_current_stock_price
  rw [hb]
  rfl

/-- C8: a stock lookup that succeeds but yields an empty result set returns
the distinct ErrorPayload "No pricing data returned for <symbol>." — never
equal, as a serialized payload, to the transport-failure payload "Unable to
fetch data for <symbol>: <error>" — and the orchestrator still appends it as
a tool-result message and completes round two instead of stopping after round
one. -/
theorem c8_empty_result_distinct_and_round_two :
    (∀ cur sym, ¬ sym = "" →
        (OpenAIStock.get_current_stock_price (.rows []) cur (.str sym)).output
          = Json.dumps (.obj [("error", .str ("No pricing data returned for " ++ sym ++ "."))]))
  ∧ (∀ sym msg,
        Json.dumps (.obj [("error", .str ("No pricing data returned for " ++ sym ++ "."))])
          ≠ Json.dumps (.obj [("error", .str ("Unable to fetch data for " ++ sym ++ ": " ++ msg))]))
  ∧ (∀ cur q content r2 c sym,
        c.name = "get_current_stock_price" →
        loads c.arguments = some (.obj [("stock_symbol", .str sym)]) →
        ¬ sym = "" →
        (OpenAIStock.call_model_with_tools (.rows []) cur q ⟨content, some [c]⟩ r2).transports.length = 2
        ∧ (OpenAIStock.call_model_with_tools (.rows []) cur q ⟨content, some [c]⟩ r2).toolMessages
            = [Msg.tool c.id (some c.name)
                (Json.dumps (.obj [("error", .str ("No pricing data returned for " ++ sym ++ "."))]))]
        ∧ (OpenAIStock.call_model_with_tools (.rows []) cur q ⟨content, some [c]⟩ r2).outcome
            = .ok (.finalAnswer r2)) := by
  refine ⟨?_, ?_, ?_⟩
  · intro cur sym hns
    rw [OpenAIStock.stock_price_empty cur sym hns]
  · intro sym msg h
    have hd : (some 'N' : Option Char) = some 'U' :=
      congrArg (fun t : String => t.data.get? 11) h
    exact absurd hd (by decide)
  · intro cur q content r2 c sym hname hl hns
    have hout : OpenAIStock.processCall (.rows []) cur c
        = .ok ((OpenAIStock.get_current_stock_price (.rows []) cur (.str sym)).output) := by
      unfold OpenAIStock.processCall
      rw [hl]
      rfl
    rw [OpenAIStock.stock_price_empty cur sym hns] at hout
    have hrun := OpenAIStock.os_loop_single (.rows []) cur c _ hname hout
    have hres := OpenAIStock.os_result_two_rounds (.rows []) cur q ⟨content, some [c]⟩ r2 _ _ _ hrun
    rw [hres]
    exact ⟨rfl, rfl, rfl⟩

/-- C8 witness: a concrete symbol with no trading data: arguments decode, the
orchestrator completes round two. -/
theorem c8_witness :
    (loads "\x7b\"stock_symbol\": \"ZZZQ\"\x7d" = some (.obj [("stock_symbol", .str "ZZZQ")]))
    ∧ ((OpenAIStock.call_model_with_tools (.rows []) none "q"
        ⟨none, some [⟨"c9", "function", "get_current_stock_price", "\x7b\"stock_symbol\": \"ZZZQ\"\x7d"⟩]⟩
        (some "apology")).transports.length = 2)
    ∧ ((OpenAIStock.call_model_with_tools (.rows []) none "q"
        ⟨none, some [⟨"c9", "function", "get_current_stock_price", "\x7b\"stock_symbol\": \"ZZZQ\"\x7d"⟩]⟩
        (some "apology")).outcome = .ok (.finalAnswer (some "apology"))) :=
  ⟨rfl,
    (c8_empty_result_distinct_and_round_two.2.2 none "q" none (some "apology")
      ⟨"c9", "function", "get_current_stock_price", "\x7b\"stock_symbol\": \"ZZZQ\"\x7d"⟩
      "ZZZQ" rfl rfl (by decide)).1,
    (c8_empty_result_distinct_and_round_two.2.2 none "q" none (some "apology")
      ⟨"c9", "function", "get_current_stock_price", "\x7b\"stock_symbol\": \"ZZZQ\"\x7d"⟩
      "ZZZQ" rfl rfl (by decide)).2.2⟩
